import Mathlib

/-!
Shallow embedding of the cart-pole example of this repository: the
CartPole simulator class and the Controller training loop of
src/cart-pole/index.js, and the training configuration checks of
src/cart-pole/ui.js.  Tensor scalars (tf.scalar values) are modelled as
real numbers; tf.add, tf.mul, tf.sub, tf.div, tf.pow, tf.min, tf.max,
tf.sin and tf.cos become the corresponding real operations.

Several identifiers read by the source are not bound in any enclosing
JavaScript scope.  Scope resolution is modelled explicitly: an inductive
type JsId lists the identifiers involved, each relevant program point
carries the list of identifiers that are in scope there (read off the
source), and reading an identifier that is not in the list produces the
ReferenceError value naming it, as in JavaScript module code, where an
unresolved identifier lookup throws before the enclosing call runs.
-/

/-- The JavaScript identifiers that matter for scope resolution in
src/cart-pole/index.js.  jsThis stands for the keyword this; tf,
maybeRenderDuringTraining and setUpUI are the module imports of index.js;
modelSavePath stands for MODEL_SAVE_PATH_, controllerClass and
saveableControllerClass for the two class declarations.  cartPoleSystem
(read at line 38) and gradients-after-the-loop (read at line 59) are
looked up against these lists. -/
inductive JsId where
  | cartPole
  | optimizer
  | maxSteps
  | seqLength
  | steps
  | j
  | f
  | gradients
  | cartPoleSystem
  | tf
  | maybeRenderDuringTraining
  | setUpUI
  | modelSavePath
  | controllerClass
  | saveableControllerClass
  | jsThis
  deriving DecidableEq, Repr

namespace CartPole

/-- index.js line 141: this.gravity = tf.scalar(9.8). -/
noncomputable def gravity : ℝ := 9.8

/-- index.js line 142: this.massCart = tf.scalar(1.0). -/
noncomputable def massCart : ℝ := 1.0

/-- index.js line 143: this.massPole = tf.scalar(0.1). -/
noncomputable def massPole : ℝ := 0.1

/-- index.js line 144: this.totalMass = this.massCart.add(this.massPole). -/
noncomputable def totalMass : ℝ := massCart + massPole

/-- index.js line 147: this.length = tf.scalar(0.5). -/
noncomputable def length : ℝ := 0.5

/-- index.js line 148: this.poleMoment = this.massPole.mul(this.length). -/
noncomputable def poleMoment : ℝ := massPole * length

/-- index.js line 149: this.forceMag = tf.scalar(10.0). -/
noncomputable def forceMag : ℝ := 10.0

/-- index.js line 150: this.tau = tf.scalar(0.02). -/
noncomputable def tau : ℝ := 0.02

/-- index.js line 151: this.frac = tf.scalar(4.0).div(3.0). -/
noncomputable def frac : ℝ := 4.0 / 3.0

/-- index.js line 154: this.xThreshold = 2.4. -/
noncomputable def xThreshold : ℝ := 2.4

/-- index.js line 155: this.thetaThreshold = 12 / 360 * 2 * Math.PI. -/
noncomputable def thetaThreshold : ℝ := 12 / 360 * 2 * Real.pi

/-- The mutable instance state of a CartPole object: the four state
variables (index.js lines 123-129) and the isDone flag (line 156).
isDone is a proposition because the threshold comparisons on real
numbers that produce it are order facts, not booleans. -/
structure State where
  x : ℝ
  xDot : ℝ
  theta : ℝ
  thetaDot : ℝ
  isDone : Prop

/-- index.js lines 161-166, CartPole.setRandomState.  r1 r2 r3 r4 are the
four Math.random() results, each in [0, 1).  The method body binds the
four drawn scalars to local constants x, xDot, theta and thetaDot and
then returns: no instance field is assigned and isDone is not touched,
so the receiver is returned unchanged. -/
noncomputable def setRandomState (s : State) (r1 r2 r3 r4 : ℝ) : State :=
  let x := r1 - 0.5
  let xDot := (r2 - 0.5) * 1
  let theta := (r3 - 0.5) * 2 * (6 / 360 * 2 * Real.pi)
  let thetaDot := (r4 - 0.5) * 0.5
  s

/-- index.js lines 203-208, CartPole._done: the termination check read by
isDone, true exactly when the cart position or the pole angle lies
strictly beyond its threshold. -/
def _done (s : State) : Prop :=
  s.x < -xThreshold ∨ s.x > xThreshold ∨
    s.theta < -thetaThreshold ∨ s.theta > thetaThreshold

/-- index.js lines 188-201, CartPole.lossFn: the failure-margin loss.
offAxis recentres the position margin at 0.5; the clamped margins feed
two squared terms, the position one weighted by 0.01. -/
noncomputable def lossFn (s : State) : ℝ :=
  let offAxis := s.x - 0.5
  let xLower := xThreshold + offAxis
  let xUpper := xThreshold - offAxis
  let xMax := max 0 (min xLower xUpper)
  let thetaLower := thetaThreshold + s.theta
  let thetaUpper := thetaThreshold - s.theta
  let thetaMax := max 0 (min thetaLower thetaUpper)
  let lossX := (xMax - xThreshold) ^ 2 * 0.01
  let lossTheta := (thetaMax - thetaThreshold) ^ 2
  lossX + lossTheta

/-- index.js line 174: term = force.add(poleMoment.mul(thetaDot)
.mul(thetaDot).mul(sinTheta).div(totalMass)).  Only the pole-moment
product is divided by the total mass; force is added undivided. -/
noncomputable def term (s : State) (force : ℝ) : ℝ :=
  force + poleMoment * s.thetaDot * s.thetaDot * Real.sin s.theta / totalMass

/-- index.js line 175: bottomTerm = length.mul(frac.sub(massPole
.mul(tf.pow(cosTheta, 2)).div(totalMass))). -/
noncomputable def bottomTerm (s : State) : ℝ :=
  length * (frac - massPole * (Real.cos s.theta) ^ 2 / totalMass)

/-- index.js line 176: thetaAcc = gravity.mul(sinTheta)
.sub(cosTheta.mul(term)).div(bottomTerm). -/
noncomputable def thetaAcc (s : State) (force : ℝ) : ℝ :=
  (gravity * Real.sin s.theta - Real.cos s.theta * term s force) / bottomTerm s

/-- index.js line 177: xAcc = term.sub(poleMoment.mul(thetaAcc)
.mul(cosTheta).div(totalMass)). -/
noncomputable def xAcc (s : State) (force : ℝ) : ℝ :=
  term s force - poleMoment * thetaAcc s force * Real.cos s.theta / totalMass

/-- index.js lines 171-185: the state update of CartPole.forward, given
the value force of the applied force.  (Line 169 itself, const force =
net.predict(inputs) * this.forceMag, reads the identifier inputs, which
is bound nowhere in the enclosing scopes, so an actual call of forward
throws a ReferenceError before this update runs; the update is modelled
separately because the dynamics formula is specified on its own.)
Lines 179-182 assign the four fields in order, each from the values the
fields held before the assignments began: the new x uses the old xDot,
the new theta uses the old thetaDot, and both accelerations were
computed from the old state.  Line 184 then recomputes isDone from the
updated fields. -/
noncomputable def forwardDyn (s : State) (force : ℝ) : State :=
  let x := tau * s.xDot + s.x
  let xDot := tau * xAcc s force + s.xDot
  let theta := tau * s.thetaDot + s.theta
  let thetaDot := tau * thetaAcc s force + s.thetaDot
  let updated : State :=
    { x := x, xDot := xDot, theta := theta, thetaDot := thetaDot,
      isDone := s.isDone }
  { updated with isDone := _done updated }

/-- The angular-acceleration formula exactly as the specification writes
it: thetaAcc = (g sinT - cosT ((F + pm tDot^2 sinT) / M)) / (L (4/3 -
pm cosT^2 / M)), with the whole sum F + pm tDot^2 sinT divided by the
total mass.  The specification writes the one symbol pm in both places,
so pm is a parameter here; the source uses poleMoment in the numerator
occurrence and massPole in the denominator one. -/
noncomputable def specThetaAcc (pm : ℝ) (s : State) (F : ℝ) : ℝ :=
  (gravity * Real.sin s.theta -
      Real.cos s.theta * ((F + pm * s.thetaDot ^ 2 * Real.sin s.theta) / totalMass)) /
    (length * (4 / 3 - pm * (Real.cos s.theta) ^ 2 / totalMass))

end CartPole

namespace Controller

/-- index.js line 34: const seqLength = 8, the unroll length of one
gradient computation. -/
def seqLength : ℕ := 8

/-- The identifiers in scope at index.js line 38, the first statement of
the body of the episode loop of Controller.train: the keyword this, the
parameters cartPole, optimizer and maxSteps, the function-body
declarations seqLength and steps, the loop variable j, the block
declarations f and gradients (lexically in scope from the top of the
block, though unusable before their declarations run), and the
module-level bindings of index.js.  cartPoleSystem is not among them:
nothing in index.js, ui.js or the page declares it, so reading it at
line 38 throws a ReferenceError. -/
def trainLoopBodyScope : List JsId :=
  [JsId.jsThis, JsId.cartPole, JsId.optimizer, JsId.maxSteps,
   JsId.seqLength, JsId.steps, JsId.j, JsId.f, JsId.gradients,
   JsId.tf, JsId.maybeRenderDuringTraining, JsId.setUpUI,
   JsId.modelSavePath, JsId.controllerClass, JsId.saveableControllerClass]

/-- The identifiers in scope at index.js line 59, just after the episode
loop: as above but without the loop variable j and without the block
declarations f and gradients, whose const declarations at lines 40 and
48 are scoped to the loop body block.  In particular gradients is not in
scope at line 59, so the trailing optimizer.applyGradients(gradients)
can only throw a ReferenceError, never apply anything. -/
def trainAfterLoopScope : List JsId :=
  [JsId.jsThis, JsId.cartPole, JsId.optimizer, JsId.maxSteps,
   JsId.seqLength, JsId.steps,
   JsId.tf, JsId.maybeRenderDuringTraining, JsId.setUpUI,
   JsId.modelSavePath, JsId.controllerClass, JsId.saveableControllerClass]

/-- What a call of Controller.train actually does to the world: how many
physics steps (calls of CartPole.forward) executed and how many times
optimizer.applyGradients ran. -/
structure TrainTrace where
  physSteps : ℕ
  optApplies : ℕ
  deriving DecidableEq, Repr

/-- The outcome of a call of Controller.train: a normal return of the
steps counter, or a thrown ReferenceError naming the identifier whose
lookup failed. -/
inductive TrainResult where
  | ok (steps : ℕ)
  | referenceError (ident : JsId)
  deriving DecidableEq, Repr

/-- index.js lines 33-62, Controller.train(cartPole, optimizer,
maxSteps).  r1 r2 r3 r4 are the Math.random() draws consumed by the
setRandomState call of line 36.  Line 34 binds seqLength := 8 and line
35 binds steps := 0; line 36 calls cartPole.setRandomState(), which
leaves the state unchanged (CartPole.setRandomState above is the
identity on its receiver, so the call is dropped here and the state
argument and random draws r1 r2 r3 r4 are carried only for the
signature).  The loop of line 37 runs its body iff
0 < maxSteps.  The body starts at line 38 with await
maybeRenderDuringTraining(cartPoleSystem): the argument cartPoleSystem
is resolved before the call, and it is not in trainLoopBodyScope, so the
first iteration throws a ReferenceError before any forward step, any
loss, any gradient computation or any optimizer application; lines 40-56
are unreachable on every path through the loop, which is why the branch
taken when the lookup succeeds carries no further semantics.  When
maxSteps is not positive the loop body never runs and control reaches
line 59, optimizer.applyGradients(gradients); gradients is not in
trainAfterLoopScope, so that lookup throws instead — had it resolved,
this statement would have applied the gradients of the final block a
second time, which is what the recorded optApplies := 1 of that
unreachable branch stands for.  Line 61, return steps, is reached on no
path. -/
def train (cartPole : CartPole.State) (r1 r2 r3 r4 : ℝ) (maxSteps : ℤ) :
    TrainResult × TrainTrace :=
  if 0 < maxSteps then
    if JsId.cartPoleSystem ∈ trainLoopBodyScope then
      (TrainResult.ok 0, { physSteps := 0, optApplies := 0 })
    else
      (TrainResult.referenceError JsId.cartPoleSystem,
        { physSteps := 0, optApplies := 0 })
  else
    if JsId.gradients ∈ trainAfterLoopScope then
      (TrainResult.ok 0, { physSteps := 0, optApplies := 1 })
    else
      (TrainResult.referenceError JsId.gradients,
        { physSteps := 0, optApplies := 0 })

end Controller

namespace UI

/-- The two validation failures the train-button click handler of ui.js
can raise before training starts: line 235, Invalid number of
iterations, and line 239, Invalid max. steps per game. -/
inductive ConfigError where
  | invalidIterations
  | invalidMaxSteps
  deriving DecidableEq, Repr

/-- ui.js lines 233-246, the configuration checks of the train-button
click handler, in source order: line 234 rejects unless
trainIterations > 0, line 238 rejects unless maxSteps > 1.  The learning
rate is parsed at line 241 and handed to tf.train.adam at line 246
without any check, so it does not influence validation at all; only on
ok does the handler go on to create the optimizer and start training. -/
def validateTrainConfig (trainIterations maxSteps : ℤ) (learningRate : ℝ) :
    Except ConfigError Unit :=
  if ¬ trainIterations > 0 then Except.error ConfigError.invalidIterations
  else if ¬ maxSteps > 1 then Except.error ConfigError.invalidMaxSteps
  else Except.ok ()

end UI

/-- A convenient resting state: cart at the origin, pole vertical, no
velocities, isDone clear. -/
noncomputable def s0 : CartPole.State :=
  { x := 0, xDot := 0, theta := 0, thetaDot := 0, isDone := False }

/-- A state that is already terminal: the pole angle sits 0.01 rad
beyond thetaThreshold. -/
noncomputable def sTerm : CartPole.State :=
  { x := 0, xDot := 0, theta := CartPole.thetaThreshold + 0.01,
    thetaDot := 0, isDone := False }

namespace CartPole

/-- The angle threshold 12 / 360 * 2 * pi is positive. -/
lemma thetaThreshold_pos : 0 < thetaThreshold := by
  unfold thetaThreshold
  positivity

/-- The squared clamped margin of lossFn in closed form: for a
nonnegative threshold c, (max 0 (min (c + t) (c - t)) - c) ^ 2 equals
(min the-absolute-distance c) ^ 2. -/
lemma clamp_sq (c t : ℝ) (hc : 0 ≤ c) :
    (max 0 (min (c + t) (c - t)) - c) ^ 2 = (min |t| c) ^ 2 := by
  rcases le_total 0 t with ht | ht
  · rw [abs_of_nonneg ht]
    rcases le_total t c with h | h
    · rw [min_eq_right (by linarith : c - t ≤ c + t),
        max_eq_right (by linarith : (0 : ℝ) ≤ c - t), min_eq_left h]
      ring
    · rw [min_eq_right (by linarith : c - t ≤ c + t),
        max_eq_left (by linarith : c - t ≤ (0 : ℝ)), min_eq_right h]
      ring
  · rw [abs_of_nonpos ht]
    rcases le_total (-t) c with h | h
    · rw [min_eq_left (by linarith : c + t ≤ c - t),
        max_eq_right (by linarith : (0 : ℝ) ≤ c + t), min_eq_left h]
      ring
    · rw [min_eq_left (by linarith : c + t ≤ c - t),
        max_eq_left (by linarith : c + t ≤ (0 : ℝ)), min_eq_right h]
      ring

/-- lossFn in closed form: 0.01 times the squared clamped distance of x
from 0.5, plus the squared clamped magnitude of theta. -/
lemma lossFn_eq_min_form (s : State) :
    lossFn s =
      (min |s.x - 0.5| xThreshold) ^ 2 * 0.01 +
        (min |s.theta| thetaThreshold) ^ 2 := by
  have hx : (0 : ℝ) ≤ xThreshold := by norm_num [xThreshold]
  have ht : (0 : ℝ) ≤ thetaThreshold := thetaThreshold_pos.le
  show (max 0 (min (xThreshold + (s.x - 0.5)) (xThreshold - (s.x - 0.5))) -
        xThreshold) ^ 2 * 0.01 +
      (max 0 (min (thetaThreshold + s.theta) (thetaThreshold - s.theta)) -
        thetaThreshold) ^ 2 = _
  rw [clamp_sq xThreshold (s.x - 0.5) hx, clamp_sq thetaThreshold s.theta ht]

/-- If min of an absolute value and a positive constant is zero, the
value itself is zero. -/
lemma eq_zero_of_min_abs {t c : ℝ} (hc : 0 < c) (h : min |t| c = 0) :
    t = 0 := by
  rcases le_total |t| c with h' | h'
  · rw [min_eq_left h'] at h
    exact abs_eq_zero.mp h
  · rw [min_eq_right h'] at h
    exact absurd h hc.ne'

/-- Claim C1: the claim states that setRandomState stores the four fresh
uniform draws into the state fields and clears isDone.  The code instead
binds the draws to local constants and discards them: for every state
and every four draws the method returns its receiver unchanged, and on
the concrete already-done state (1, 1, 1, 1, isDone) with draws 0.9 the
result still carries the old fields and isDone still holds. -/
theorem c1_setRandomState_discards_draws :
    (∀ (s : CartPole.State) (r1 r2 r3 r4 : ℝ),
        CartPole.setRandomState s r1 r2 r3 r4 = s) ∧
      CartPole.setRandomState
          { x := 1, xDot := 1, theta := 1, thetaDot := 1, isDone := True }
          0.9 0.9 0.9 0.9 =
        { x := 1, xDot := 1, theta := 1, thetaDot := 1, isDone := True } ∧
      (CartPole.setRandomState
          { x := 1, xDot := 1, theta := 1, thetaDot := 1, isDone := True }
          0.9 0.9 0.9 0.9).isDone :=
  ⟨fun _ _ _ _ _ => rfl, rfl, trivial⟩

/-- Claim C2 (counterexample): the claim says every invocation of train
evaluates cartPoleSystem in its first loop iteration and so raises a
ReferenceError on the very first unroll block, for every argument
combination.  With maxSteps = 0 the loop body never runs: the call still
throws a ReferenceError, but for the identifier gradients at line 59,
not for cartPoleSystem in a loop iteration. -/
theorem c2_maxSteps_zero_cex :
    Controller.train s0 0.9 0.9 0.9 0.9 0 =
        (Controller.TrainResult.referenceError JsId.gradients,
          { physSteps := 0, optApplies := 0 }) ∧
      Controller.TrainResult.referenceError JsId.gradients ≠
        Controller.TrainResult.referenceError JsId.cartPoleSystem :=
  ⟨rfl, by decide⟩

/-- Claim C2 (amended): whenever maxSteps is at least 1, train raises
the ReferenceError for the unbound identifier cartPoleSystem on the
first loop iteration; when maxSteps is not positive the ReferenceError
comes from the out-of-scope identifier gradients after the loop instead.
In every case no physics step runs, no gradient is applied through the
optimizer, and the call never returns normally. -/
theorem c2_train_raises_referenceError (cp : CartPole.State)
    (r1 r2 r3 r4 : ℝ) (maxSteps : ℤ) :
    (1 ≤ maxSteps →
        Controller.train cp r1 r2 r3 r4 maxSteps =
          (Controller.TrainResult.referenceError JsId.cartPoleSystem,
            { physSteps := 0, optApplies := 0 })) ∧
      (Controller.train cp r1 r2 r3 r4 maxSteps).2.physSteps = 0 ∧
      (Controller.train cp r1 r2 r3 r4 maxSteps).2.optApplies = 0 ∧
      ∀ n, (Controller.train cp r1 r2 r3 r4 maxSteps).1 ≠
        Controller.TrainResult.ok n := by
  have hcs : JsId.cartPoleSystem ∉ Controller.trainLoopBodyScope := by decide
  have hg : JsId.gradients ∉ Controller.trainAfterLoopScope := by decide
  unfold Controller.train
  rcases lt_or_le 0 maxSteps with h | h
  · rw [if_pos h, if_neg hcs]
    exact ⟨fun _ => rfl, rfl, rfl,
      fun n h' => Controller.TrainResult.noConfusion h'⟩
  · rw [if_neg (not_lt.mpr h), if_neg hg]
    exact ⟨fun h1 => absurd h1 (by omega), rfl, rfl,
      fun n h' => Controller.TrainResult.noConfusion h'⟩

/-- Claim C2 (witness): the amended statement at the concrete call with
state s0, draws 0.9 and maxSteps = 1. -/
theorem c2_train_raises_referenceError_witness :
    Controller.train s0 0.9 0.9 0.9 0.9 1 =
      (Controller.TrainResult.referenceError JsId.cartPoleSystem,
        { physSteps := 0, optApplies := 0 }) :=
  (c2_train_raises_referenceError s0 0.9 0.9 0.9 0.9 1).1 (by norm_num)

/-- Claim C3: the claim describes each unroll block applying its
gradients exactly once.  No call of train ever computes or applies any
gradients: the concrete call with maxSteps = 8 throws the ReferenceError
for cartPoleSystem with zero optimizer applications, and the identifier
gradients is not even in scope at the post-loop applyGradients of line
59, so that trailing second application can never run either. -/
theorem c3_no_gradient_is_ever_applied :
    (Controller.train s0 0.9 0.9 0.9 0.9 8).2.optApplies = 0 ∧
      (Controller.train s0 0.9 0.9 0.9 0.9 8).1 =
        Controller.TrainResult.referenceError JsId.cartPoleSystem ∧
      JsId.gradients ∉ Controller.trainAfterLoopScope :=
  ⟨rfl, rfl, by decide⟩

/-- Claim C4: the claim says up to maxSteps physics steps run in unroll
blocks of length 8 and that the step count is returned.  The unroll
length is indeed 8, but the concrete call with maxSteps = 16 executes
zero physics steps and returns nothing: it throws the ReferenceError for
cartPoleSystem before the first forward call. -/
theorem c4_no_step_runs_no_count_returned :
    Controller.seqLength = 8 ∧
      (Controller.train s0 0.9 0.9 0.9 0.9 16).2.physSteps = 0 ∧
      (Controller.train s0 0.9 0.9 0.9 0.9 16).1 =
        Controller.TrainResult.referenceError JsId.cartPoleSystem :=
  ⟨rfl, rfl, rfl⟩

/-- Claim C5: on the state whose pole angle is thetaThreshold + 0.01 the
termination check _done holds immediately, as the claim says; but train
started there does not terminate the episode at step 0 — it throws the
ReferenceError for cartPoleSystem on the first iteration.  No physics
step and no optimizer application happen on that call (so in particular
no gradient update after the state became terminal), though by crash
rather than by the claimed early termination. -/
theorem c5_terminal_start_no_step_no_update :
    CartPole._done sTerm ∧
      Controller.train sTerm 0.9 0.9 0.9 0.9 8 =
        (Controller.TrainResult.referenceError JsId.cartPoleSystem,
          { physSteps := 0, optApplies := 0 }) := by
  constructor
  · refine Or.inr (Or.inr (Or.inr ?_))
    show CartPole.thetaThreshold < sTerm.theta
    unfold sTerm
    exact lt_add_of_pos_right _ (by norm_num)
  · rfl

/-- Claim C6 (counterexample): the claim says the loss is exactly zero
for every state safely inside both bounds.  The resting state s0 (cart
at the origin, pole vertical) is inside both bounds, yet its loss is
0.01 * 0.25 = 0.0025, not zero: the position margin of lossFn is centred
at x = 0.5, not at the safe region. -/
theorem c6_loss_nonzero_inside_bounds_cex :
    |s0.x| ≤ CartPole.xThreshold ∧ |s0.theta| ≤ CartPole.thetaThreshold ∧
      CartPole.lossFn s0 ≠ 0 := by
  refine ⟨?_, ?_, ?_⟩
  · show |(0 : ℝ)| ≤ CartPole.xThreshold
    rw [abs_zero]
    norm_num [CartPole.xThreshold]
  · show |(0 : ℝ)| ≤ CartPole.thetaThreshold
    rw [abs_zero]
    exact CartPole.thetaThreshold_pos.le
  · rw [CartPole.lossFn_eq_min_form]
    show (min |(0 : ℝ) - 0.5| CartPole.xThreshold) ^ 2 * 0.01 +
        (min |(0 : ℝ)| CartPole.thetaThreshold) ^ 2 ≠ 0
    rw [abs_zero, min_eq_left CartPole.thetaThreshold_pos.le,
      show |(0 : ℝ) - 0.5| = 0.5 by rw [abs_of_nonpos] <;> norm_num,
      min_eq_left (by norm_num [CartPole.xThreshold] :
        (0.5 : ℝ) ≤ CartPole.xThreshold)]
    norm_num

/-- Claim C6 (amended): lossFn equals 0.01 times the square of the
clamped distance of x from 0.5 plus the square of the clamped magnitude
of theta — so it grows quadratically as the state moves away from the
centre point (x, theta) = (0.5, 0) toward or beyond either bound, and it
is exactly zero only at that centre point, not on the whole safe
region. -/
theorem c6_lossFn_closed_form (s : CartPole.State) :
    CartPole.lossFn s =
        (min |s.x - 0.5| CartPole.xThreshold) ^ 2 * 0.01 +
          (min |s.theta| CartPole.thetaThreshold) ^ 2 ∧
      (CartPole.lossFn s = 0 ↔ s.x = 0.5 ∧ s.theta = 0) := by
  have hform := CartPole.lossFn_eq_min_form s
  refine ⟨hform, ?_⟩
  rw [hform]
  have hA : 0 ≤ min |s.x - 0.5| CartPole.xThreshold :=
    le_min (abs_nonneg _) (by norm_num [CartPole.xThreshold])
  have hB : 0 ≤ min |s.theta| CartPole.thetaThreshold :=
    le_min (abs_nonneg _) CartPole.thetaThreshold_pos.le
  constructor
  · intro h
    have hA0 : min |s.x - 0.5| CartPole.xThreshold = 0 :=
      le_antisymm
        (by nlinarith [sq_nonneg (min |s.theta| CartPole.thetaThreshold)]) hA
    have hB0 : min |s.theta| CartPole.thetaThreshold = 0 :=
      le_antisymm
        (by nlinarith [sq_nonneg (min |s.x - 0.5| CartPole.xThreshold)]) hB
    have hx := CartPole.eq_zero_of_min_abs
      (by norm_num [CartPole.xThreshold]) hA0
    have ht := CartPole.eq_zero_of_min_abs CartPole.thetaThreshold_pos hB0
    exact ⟨sub_eq_zero.mp hx, ht⟩
  · rintro ⟨hx, ht⟩
    rw [hx, ht, sub_self, abs_zero,
      min_eq_left (by norm_num [CartPole.xThreshold] :
        (0 : ℝ) ≤ CartPole.xThreshold),
      min_eq_left CartPole.thetaThreshold_pos.le]
    norm_num

/-- Claim C6 (witness): the closed form at the concrete state s0. -/
theorem c6_lossFn_closed_form_witness :
    CartPole.lossFn s0 =
      (min |s0.x - 0.5| CartPole.xThreshold) ^ 2 * 0.01 +
        (min |s0.theta| CartPole.thetaThreshold) ^ 2 :=
  (c6_lossFn_closed_form s0).1

/-- Claim C7 (counterexample): the claim says a run started with a
non-positive learning rate fails fast with a validation error.  With
valid iterations and maxSteps and learning rate -1, the configuration
checks of the click handler succeed: the learning rate is never
validated. -/
theorem c7_learning_rate_unvalidated_cex :
    UI.validateTrainConfig 1 2 (-1) = Except.ok () ∧ ((-1 : ℝ) ≤ 0) :=
  ⟨rfl, by norm_num⟩

/-- Claim C7 (amended): non-positive iterations fail fast with the
iterations validation error, and maxSteps of at most 1 (hence every
non-positive maxSteps) fails fast with the max-steps validation error,
both before the optimizer is created or any simulation starts; the
learning rate is not validated — with valid iterations and maxSteps,
every learning rate, non-positive ones included, passes the checks. -/
theorem c7_validation_rules (it ms : ℤ) (lr : ℝ) :
    (it ≤ 0 →
        UI.validateTrainConfig it ms lr =
          Except.error UI.ConfigError.invalidIterations) ∧
      (0 < it → ms ≤ 1 →
        UI.validateTrainConfig it ms lr =
          Except.error UI.ConfigError.invalidMaxSteps) ∧
      (0 < it → 1 < ms →
        UI.validateTrainConfig it ms lr = Except.ok ()) := by
  unfold UI.validateTrainConfig
  refine ⟨fun h => ?_, fun h1 h2 => ?_, fun h1 h2 => ?_⟩
  · rw [if_pos (not_lt.mpr h)]
  · rw [if_neg (not_not_intro h1), if_pos (not_lt.mpr h2)]
  · rw [if_neg (not_not_intro h1), if_neg (not_not_intro h2)]

/-- Claim C7 (witness): the three validation behaviours at concrete
configurations, the last with a negative learning rate. -/
theorem c7_validation_rules_witness :
    UI.validateTrainConfig 0 5 0.1 =
        Except.error UI.ConfigError.invalidIterations ∧
      UI.validateTrainConfig 3 0 0.1 =
        Except.error UI.ConfigError.invalidMaxSteps ∧
      UI.validateTrainConfig 3 2 (-0.5) = Except.ok () :=
  ⟨(c7_validation_rules 0 5 0.1).1 (by norm_num),
    (c7_validation_rules 3 0 0.1).2.1 (by norm_num) (by norm_num),
    (c7_validation_rules 3 2 (-0.5)).2.2 (by norm_num) (by norm_num)⟩

/-- Claim C8 (counterexample): at the resting state s0 with applied
force 10, the angular acceleration the specification formula yields
differs from the one the code computes, whichever mass constant the
one specification symbol pm stands for.  With sin 0 = 0 and cos 0 = 1
the code gives -(10) / (0.5 * (4/3 - 0.1/1.1)) = -660/41, while the
specification divides the force by the total mass first and gives
-(10/1.1) / (0.5 * (4/3 - pm/1.1)), which is -240/17 for
pm = poleMoment and -600/41 for pm = massPole. -/
theorem c8_thetaAcc_formula_cex :
    CartPole.specThetaAcc CartPole.poleMoment s0 10 ≠
        CartPole.thetaAcc s0 10 ∧
      CartPole.specThetaAcc CartPole.massPole s0 10 ≠
        CartPole.thetaAcc s0 10 := by
  have h0 : s0.theta = 0 := rfl
  have h1 : s0.thetaDot = 0 := rfl
  constructor <;>
    · simp only [CartPole.specThetaAcc, CartPole.thetaAcc, CartPole.term,
        CartPole.bottomTerm, h0, h1, Real.sin_zero, Real.cos_zero,
        CartPole.gravity, CartPole.poleMoment, CartPole.massPole,
        CartPole.massCart, CartPole.totalMass, CartPole.length,
        CartPole.frac]
      norm_num

/-- Claim C8 (amended): the code computes thetaAcc = (g sinT - cosT (F +
poleMoment tDot^2 sinT / M)) / (L (4/3 - massPole cosT^2 / M)): only the
pole-moment product is divided by the total mass (the applied force F is
not), the numerator mass constant is poleMoment and the denominator one
is massPole.  The integration is as the claim states it: both position
variables advance by tau times their pre-update velocities, and both
velocities advance by tau times the accelerations computed from the
pre-update state; isDone is then recomputed from the new x and theta. -/
theorem c8_forward_update_formulas (s : CartPole.State) (F : ℝ) :
    CartPole.thetaAcc s F =
        (CartPole.gravity * Real.sin s.theta -
            Real.cos s.theta *
              (F + CartPole.poleMoment * s.thetaDot ^ 2 * Real.sin s.theta /
                CartPole.totalMass)) /
          (CartPole.length *
            (4 / 3 - CartPole.massPole * (Real.cos s.theta) ^ 2 /
              CartPole.totalMass)) ∧
      CartPole.forwardDyn s F =
        { x := s.x + CartPole.tau * s.xDot,
          xDot := s.xDot + CartPole.tau * CartPole.xAcc s F,
          theta := s.theta + CartPole.tau * s.thetaDot,
          thetaDot := s.thetaDot + CartPole.tau * CartPole.thetaAcc s F,
          isDone :=
            s.x + CartPole.tau * s.xDot < -CartPole.xThreshold ∨
              s.x + CartPole.tau * s.xDot > CartPole.xThreshold ∨
              s.theta + CartPole.tau * s.thetaDot <
                -CartPole.thetaThreshold ∨
              s.theta + CartPole.tau * s.thetaDot >
                CartPole.thetaThreshold } := by
  constructor
  · unfold CartPole.thetaAcc CartPole.term CartPole.bottomTerm CartPole.frac
    ring_nf
  · have e1 : s.x + CartPole.tau * s.xDot =
        CartPole.tau * s.xDot + s.x := add_comm _ _
    have e2 : s.xDot + CartPole.tau * CartPole.xAcc s F =
        CartPole.tau * CartPole.xAcc s F + s.xDot := add_comm _ _
    have e3 : s.theta + CartPole.tau * s.thetaDot =
        CartPole.tau * s.thetaDot + s.theta := add_comm _ _
    have e4 : s.thetaDot + CartPole.tau * CartPole.thetaAcc s F =
        CartPole.tau * CartPole.thetaAcc s F + s.thetaDot := add_comm _ _
    rw [e1, e2, e3, e4]
    rfl

/-- Claim C8 (witness): the amended acceleration formula at the concrete
state s0 with force 10. -/
theorem c8_forward_update_formulas_witness :
    CartPole.thetaAcc s0 10 =
      (CartPole.gravity * Real.sin s0.theta -
          Real.cos s0.theta *
            (10 + CartPole.poleMoment * s0.thetaDot ^ 2 * Real.sin s0.theta /
              CartPole.totalMass)) /
        (CartPole.length *
          (4 / 3 - CartPole.massPole * (Real.cos s0.theta) ^ 2 /
            CartPole.totalMass)) :=
  (c8_forward_update_formulas s0 10).1

/-- Claim C9: the termination check holds exactly when the cart position
or the pole angle lies strictly beyond its threshold; in particular it
is false on every state with both magnitudes at most their thresholds
(threshold values included), and true whenever one magnitude strictly
exceeds its threshold. -/
theorem c9_done_iff_strictly_beyond (s : CartPole.State) :
    CartPole._done s ↔
      CartPole.xThreshold < |s.x| ∨ CartPole.thetaThreshold < |s.theta| := by
  unfold CartPole._done
  rw [lt_abs, lt_abs]
  constructor
  · rintro (h | h | h | h)
    · exact Or.inl (Or.inr (by linarith))
    · exact Or.inl (Or.inl h)
    · exact Or.inr (Or.inr (by linarith))
    · exact Or.inr (Or.inl h)
  · rintro ((h | h) | (h | h))
    · exact Or.inr (Or.inl h)
    · exact Or.inl (by linarith)
    · exact Or.inr (Or.inr (Or.inr h))
    · exact Or.inr (Or.inr (Or.inl (by linarith)))

/-- Claim C9 (witness): the check is false at the resting state s0 and
true at a state whose position 3 exceeds xThreshold = 2.4. -/
theorem c9_done_iff_strictly_beyond_witness :
    ¬ CartPole._done s0 ∧
      CartPole._done
        { x := 3, xDot := 0, theta := 0, thetaDot := 0, isDone := False } := by
  constructor
  · intro h
    rcases (c9_done_iff_strictly_beyond s0).mp h with h' | h'
    · rw [show s0.x = 0 from rfl, abs_zero] at h'
      norm_num [CartPole.xThreshold] at h'
    · rw [show s0.theta = 0 from rfl, abs_zero] at h'
      exact absurd h' (not_lt.mpr CartPole.thetaThreshold_pos.le)
  · refine (c9_done_iff_strictly_beyond _).mpr (Or.inl ?_)
    show CartPole.xThreshold < |(3 : ℝ)|
    rw [abs_of_nonneg (by norm_num : (0 : ℝ) ≤ 3)]
    norm_num [CartPole.xThreshold]

/-- The loss along the slice the specification singles out: with the
cart at the margin centre x = 0.5, lossFn reduces to the square of the
clamped pole-angle magnitude. -/
lemma lossFn_center (t : ℝ) :
    CartPole.lossFn
        { x := 0.5, xDot := 0, theta := t, thetaDot := 0, isDone := False } =
      (min |t| CartPole.thetaThreshold) ^ 2 := by
  rw [CartPole.lossFn_eq_min_form]
  show (min |(0.5 : ℝ) - 0.5| CartPole.xThreshold) ^ 2 * 0.01 +
      (min |t| CartPole.thetaThreshold) ^ 2 = _
  rw [sub_self, abs_zero,
    min_eq_left (by norm_num [CartPole.xThreshold] :
      (0 : ℝ) ≤ CartPole.xThreshold)]
  norm_num

/-- Claim C10: with the cart held at x = 0.5, the loss is exactly zero
at theta = 0, strictly positive for every nonzero theta of magnitude at
most thetaThreshold, and strictly increasing in the magnitude of theta
on that range. -/
theorem c10_loss_center_zero_theta_monotone :
    CartPole.lossFn
        { x := 0.5, xDot := 0, theta := 0, thetaDot := 0, isDone := False } =
        0 ∧
      (∀ t : ℝ, 0 < |t| → |t| ≤ CartPole.thetaThreshold →
        0 < CartPole.lossFn
          { x := 0.5, xDot := 0, theta := t, thetaDot := 0,
            isDone := False }) ∧
      (∀ t u : ℝ, |t| < |u| → |u| ≤ CartPole.thetaThreshold →
        CartPole.lossFn
            { x := 0.5, xDot := 0, theta := t, thetaDot := 0,
              isDone := False } <
          CartPole.lossFn
            { x := 0.5, xDot := 0, theta := u, thetaDot := 0,
              isDone := False }) := by
  refine ⟨?_, fun t h1 h2 => ?_, fun t u h1 h2 => ?_⟩
  · rw [lossFn_center, abs_zero,
      min_eq_left CartPole.thetaThreshold_pos.le]
    norm_num
  · rw [lossFn_center, min_eq_left h2]
    exact pow_pos h1 2
  · rw [lossFn_center, lossFn_center, min_eq_left h2,
      min_eq_left (le_of_lt (lt_of_lt_of_le h1 h2))]
    nlinarith [abs_nonneg t, abs_nonneg u]

/-- Claim C10 (witness): concrete values on the x = 0.5 slice — the loss
is positive at theta = 1/10 and smaller at theta = 1/20. -/
theorem c10_loss_center_zero_theta_monotone_witness :
    0 < CartPole.lossFn
        { x := 0.5, xDot := 0, theta := 1 / 10, thetaDot := 0,
          isDone := False } ∧
      CartPole.lossFn
          { x := 0.5, xDot := 0, theta := 1 / 20, thetaDot := 0,
            isDone := False } <
        CartPole.lossFn
          { x := 0.5, xDot := 0, theta := 1 / 10, thetaDot := 0,
            isDone := False } := by
  have hb : |(1 : ℝ) / 10| ≤ CartPole.thetaThreshold := by
    rw [abs_of_nonneg (by norm_num : (0 : ℝ) ≤ 1 / 10)]
    unfold CartPole.thetaThreshold
    linarith [Real.pi_gt_three]
  refine ⟨c10_loss_center_zero_theta_monotone.2.1 (1 / 10) ?_ hb,
    c10_loss_center_zero_theta_monotone.2.2 (1 / 20) (1 / 10) ?_ hb⟩
  · rw [abs_of_nonneg (by norm_num : (0 : ℝ) ≤ 1 / 10)]
    norm_num
  · rw [abs_of_nonneg (by norm_num : (0 : ℝ) ≤ 1 / 20),
      abs_of_nonneg (by norm_num : (0 : ℝ) ≤ 1 / 10)]
    norm_num
